import Mathlib

/-!
Shallow embedding of `src/git.go` (package `git` of clarsonneur/go-git).

External process execution (`Get`, `Do`, `utils.RunCmd`) is out of scope: each
embedded function takes the captured output of the relevant git invocation as
an explicit parameter, of type `Except String String` standing for Go's
`(string, error)` pair (a non-nil error carries the empty string result, which
is exactly what `Except.error` models).

Go strings are embedded as Lean `String`; `strings.Split(s, "\n")` is embedded
by an explicit recursive splitter on the character list, and the two regular
expressions of `GetStatus` and the one of `RemoteUrl` are embedded as explicit
matching functions on the character list, returning the capture groups that
`FindStringSubmatch` would return.
-/

namespace GoGit

/-- Modelled from the spec: the repository's `Status` record type and its
`ChangeRecord` maps (`map[string][]string` in `git.go`) are declared outside
`src/git.go`; the spec describes a ChangeRecord as "a mapping keyed by
single-character change-kind code ... to an ordered sequence of file paths".
We embed a record as the ordered list of (kind, path) insertion events; the
per-kind path sequence of the Go map is recovered by `ChangeRecord.paths`. -/
abbrev ChangeRecord := List (String × String)

/-- Modelled from the spec: `add` inserts the parsed kind code and path into
the record, "preserving the order the lines were encountered". -/
def ChangeRecord.add (r : ChangeRecord) (kind path : String) : ChangeRecord :=
  r ++ [(kind, path)]

/-- Ordered sequence of paths recorded under a given kind (the Go map lookup). -/
def ChangeRecord.paths (r : ChangeRecord) (kind : String) : List String :=
  (r.filter (fun e => e.1 = kind)).map (fun e => e.2)

/-- Modelled from the spec: `CountTracked` is the "count of tracked
(non-untracked) entries across all kinds", i.e. the number of entries whose
kind is not `?`. -/
def ChangeRecord.CountTracked (r : ChangeRecord) : Nat :=
  (r.filter (fun e => e.1 ≠ "?")).length

/-- Modelled from the spec: `Status` is the StatusSnapshot — "the pair
(ReadyRecord, NotReadyRecord) plus an optional captured error from the
underlying command invocation" (`gs.Ready`, `gs.NotReady`, `gs.Err`). -/
structure Status where
  Ready : ChangeRecord
  NotReady : ChangeRecord
  Err : Option String
deriving DecidableEq, Repr

/-- The freshly constructed snapshot: both records empty (as after the two
`make`/`init` calls in `GetStatus`), no captured error. -/
def Status.empty : Status := { Ready := [], NotReady := [], Err := none }

/-- Embedding of Go `strings.Split(s, "\n")` at the character-list level:
splits at every newline, always yielding one more piece than separators
(`[]` input yields `[[]]`, matching Go's `[""]`). -/
def splitLines : List Char → List (List Char)
  | [] => [[]]
  | c :: cs =>
    if c = '\n' then [] :: splitLines cs
    else
      match splitLines cs with
      | l :: ls => (c :: l) :: ls
      | [] => [[c]]

/-- Embedding of Go `strings.Split(s, "\n")` on strings. -/
def goSplit (s : String) : List String :=
  (splitLines s.data).map String.mk

/-- Embedding of `ReadyRE = "^([ADM])  (.*)$"` applied via
`FindStringSubmatch`: on a match, returns the two capture groups (kind, rest).
`.` in a Go regexp does not match a newline, hence the `'\n' ∉ rest` guard. -/
def matchReady (line : String) : Option (String × String) :=
  match line.data with
  | c :: s1 :: s2 :: rest =>
    if s1 = ' ' ∧ s2 = ' ' ∧ (c = 'A' ∨ c = 'D' ∨ c = 'M') ∧ '\n' ∉ rest then
      some (String.mk [c], String.mk rest)
    else none
  | _ => none

/-- Embedding of `NotReadyRE = "^ ([?ADM]) (.*)$"` applied via
`FindStringSubmatch`: on a match, returns the two capture groups (kind, rest). -/
def matchNotReady (line : String) : Option (String × String) :=
  match line.data with
  | c0 :: c :: s1 :: rest =>
    if c0 = ' ' ∧ s1 = ' ' ∧ (c = '?' ∨ c = 'A' ∨ c = 'D' ∨ c = 'M') ∧ '\n' ∉ rest then
      some (String.mk [c], String.mk rest)
    else none
  | _ => none

/-- One iteration of the line loop of `GetStatus` (git.go lines 44-51).
Note the source's line 49: a `NotReadyRE` match is added to `gs.Ready`,
not `gs.NotReady`; the embedding reproduces this faithfully. -/
def classifyLine (gs : Status) (line : String) : Status :=
  let gs1 :=
    match matchReady line with
    | some (k, p) => { gs with Ready := gs.Ready.add k p }
    | none => gs
  match matchNotReady line with
  | some (k, p) => { gs1 with Ready := gs1.Ready.add k p }
  | none => gs1

/-- Embedding of `GetStatus` (git.go lines 24-53). The captured result of
`Get("status", "--porcelain")` is the parameter `statusRes`. -/
def GetStatus (statusRes : Except String String) : Status :=
  match statusRes with
  | .error e => { Status.empty with Err := some e }
  | .ok s =>
    if s = "" then Status.empty
    else (goSplit s).foldl classifyLine Status.empty

/-- Result of `Commit`: the returned error, plus whether the underlying
`Do("commit", "-m", msg)` action was issued at all. -/
structure CommitOutcome where
  err : Option String
  commitInvoked : Bool
deriving DecidableEq, Repr

/-- Embedding of `Commit` (git.go lines 70-82). `statusRes` is the captured
result of the status query issued by `GetStatus`; `commitExit` is the exit
code `Do("commit", "-m", msg)` would return if invoked. Note the source never
inspects `s.Err`. -/
def Commit (_msg : String) (errorIfEmpty : Bool)
    (statusRes : Except String String) (commitExit : Int) : CommitOutcome :=
  let s := GetStatus statusRes
  if s.Ready.CountTracked = 0 then
    if errorIfEmpty then
      { err := some "No files to commit. Please check", commitInvoked := false }
    else
      { err := none, commitInvoked := false }
  else
    if commitExit > 0 then
      { err := some "Unable to commit", commitInvoked := true }
    else
      { err := none, commitInvoked := true }

/-- The three-way comparison at the end of `RemoteStatus`
(git.go lines 164-173), on the raw revision strings. -/
def RemoteStatusCompare (local_rev remote_rev base_rev : String) : String :=
  if local_rev = remote_rev then "="
  else if local_rev = base_rev then "-1"
  else if remote_rev = base_rev then "+1"
  else "-1+1"

/-- Embedding of `RemoteStatus` (git.go lines 146-174). The three parameters
are the captured results of `Get("rev-parse", "@\x7b0\x7d")`,
`Get("rev-parse", remote)` and `Get("merge-base", "@\x7b0\x7d", remote)`;
each failing resolution is returned as-is (Go's `return "", err`). -/
def RemoteStatus (localRes remoteRes baseRes : Except String String) :
    Except String String :=
  match localRes with
  | .error e => .error e
  | .ok local_rev =>
    match remoteRes with
    | .error e => .error e
    | .ok remote_rev =>
      match baseRes with
      | .error e => .error e
      | .ok base_rev => .ok (RemoteStatusCompare local_rev remote_rev base_rev)

/-- ASCII word character, Go regexp `\w` = `[0-9A-Za-z_]`. -/
def isWordChar (c : Char) : Bool :=
  c.isAlphanum || c = '_'

/-- Decomposes `r` as `p ++ " (fetch)"` or `p ++ " (push)"` when possible,
returning `p` and the direction capture; this is where the anchored tail
` \((fetch|push)\)$` of `RemoteUrl`'s regexp can match. -/
def dirSuffix (r : List Char) : Option (List Char × String) :=
  if (" (fetch)".data).isSuffixOf r then
    some (r.take (r.length - 8), "fetch")
  else if (" (push)".data).isSuffixOf r then
    some (r.take (r.length - 7), "push")
  else none

/-- Embedding of `remMatch = `^ *(\w+) *(.*) \((fetch|push)\)$`` applied via
`FindStringSubmatch` (git.go line 205): on a match returns
(m0 = whole line, m1 = name, m2 = url field, m3 = direction). Greedy
matching makes m1 the maximal leading word run and m2 the remainder with its
leading spaces consumed by the second ` *`; `.` does not match a newline. -/
def matchRemoteVerbose (line : String) : Option (String × String × String × String) :=
  let cs := line.data
  let lead := cs.takeWhile (fun c => c = ' ')
  let rest1 := cs.drop lead.length
  let w := rest1.takeWhile isWordChar
  if w = [] then none
  else
    let r := rest1.drop w.length
    match dirSuffix r with
    | none => none
    | some (p, d) =>
      if '\n' ∈ p then none
      else
        let sp2 := p.takeWhile (fun c => c = ' ')
        let mid := p.drop sp2.length
        some (line, String.mk w, String.mk mid, d)

/-- The `(string, bool, error)` triple returned by `RemoteUrl`. -/
structure RemoteUrlResult where
  url : String
  found : Bool
  err : Option String
deriving DecidableEq, Repr

/-- The per-line loop of `RemoteUrl` (git.go lines 206-211). The source reads
`v[0]` from the `FindStringSubmatch` result without a nil check, so a line
that does not match the pattern makes the Go program index a nil slice:
this runtime failure is modelled as `none`. On a match the source compares
`v[0]` (the whole line) with `remote` and returns `v[1]` (the name capture). -/
def remoteUrlScan (remote : String) : List String → Option RemoteUrlResult
  | [] => some { url := "", found := false, err := none }
  | aRemote :: rest =>
    match matchRemoteVerbose aRemote with
    | none => none
    | some (m0, m1, _, _) =>
      if m0 = remote then some { url := m1, found := true, err := none }
      else remoteUrlScan remote rest

/-- Embedding of `RemoteUrl` (git.go lines 193-212). `listRes` is the captured
result of `Get("remote", "-v")`; `none` models the runtime indexing failure
of `v[0]` on a non-matching line. -/
def RemoteUrl (remote : String) (listRes : Except String String) :
    Option RemoteUrlResult :=
  match listRes with
  | .error e => some { url := "", found := false, err := some e }
  | .ok v =>
    let remotes := if v = "" then ([] : List String) else goSplit v
    remoteUrlScan remote remotes

/-- Whitespace for the spec's "trimmed of surrounding whitespace". -/
def isWS (c : Char) : Bool :=
  c = ' ' || c = '\t' || c = '\n' || c = '\r'

/-- Modelled from the spec (for comparison with the source, which does not
trim): "each argument is a revision identifier ... (trimmed of surrounding
whitespace before comparison)". Removes leading and trailing whitespace. -/
def specTrim (s : String) : String :=
  String.mk (((s.data.dropWhile isWS).reverse.dropWhile isWS).reverse)

end GoGit

namespace GoGit

/-- A list without a newline splits into itself alone. -/
theorem splitLines_eq_single (l : List Char) (h : '\n' ∉ l) : splitLines l = [l] := by
  induction l with
  | nil => rfl
  | cons c cs ih =>
    have hc : c ≠ '\n' := fun hc => h (hc ▸ List.mem_cons_self c cs)
    have hcs : '\n' ∉ cs := fun hm => h (List.mem_cons_of_mem c hm)
    simp [splitLines, hc, ih hcs]

/-- Appending a common suffix to two strings preserves (dis)equality. -/
theorem string_append_cancel_right (x y w : String) : (x ++ w = y ++ w) ↔ x = y := by
  constructor
  · intro h
    apply String.ext
    have hd : x.data ++ w.data = y.data ++ w.data := congrArg String.data h
    exact List.append_cancel_right hd
  · intro h
    rw [h]

/-- C1: the claim says a well-formed not-ready line " Y PATH" is placed under
kind Y in the not-ready record only. The source (git.go line 49) instead adds
every NotReadyRE match to `gs.Ready`; on input " ? newfile.txt" the path ends
up in the ready record under kind "?" and the not-ready record stays empty. -/
theorem notReady_line_added_to_ready :
    GetStatus (Except.ok " ? newfile.txt")
      = { Ready := [("?", "newfile.txt")], NotReady := [], Err := none } := by
  decide

/-- C2: the claim says the ready record only ever holds kinds in the set
containing A, D and M, and in particular never "?". Because git.go line 49
routes not-ready matches into `gs.Ready`, the untracked kind "?" does appear
in the ready record: witnessed on input " ? a.txt". -/
theorem untracked_kind_reaches_ready_record :
    ("?", "a.txt") ∈ (GetStatus (Except.ok " ? a.txt")).Ready ∧
    (GetStatus (Except.ok " ? a.txt")).Ready.paths "?" = ["a.txt"] := by
  decide

/-- C3: a well-formed ready line "X  PATH" (X in the set containing A, D and
M, then two spaces, then the path) is classified under kind X in the ready
record and the not-ready record receives nothing. -/
theorem ready_line_classification (c : Char) (p : String)
    (hc : c = 'A' ∨ c = 'D' ∨ c = 'M') (hp : '\n' ∉ p.data) :
    (GetStatus (Except.ok (String.mk (c :: ' ' :: ' ' :: p.data)))).Ready
        = [(String.mk [c], p)] ∧
    (GetStatus (Except.ok (String.mk (c :: ' ' :: ' ' :: p.data)))).NotReady = [] := by
  have hc1 : c ≠ ' ' := by rcases hc with h | h | h <;> subst h <;> decide
  have hc2 : c ≠ '\n' := by rcases hc with h | h | h <;> subst h <;> decide
  have hs : String.mk (c :: ' ' :: ' ' :: p.data) ≠ "" := by
    simp [String.ext_iff]
  have hnl : '\n' ∉ (c :: ' ' :: ' ' :: p.data) := by
    simp only [List.mem_cons]
    push_neg
    exact ⟨fun h => hc2 h.symm, by decide, by decide, hp⟩
  have hsplit : splitLines (c :: ' ' :: ' ' :: p.data) = [c :: ' ' :: ' ' :: p.data] :=
    splitLines_eq_single _ hnl
  have key : GetStatus (Except.ok (String.mk (c :: ' ' :: ' ' :: p.data)))
      = { Ready := [(String.mk [c], p)], NotReady := [], Err := none } := by
    rw [GetStatus, if_neg hs]
    unfold goSplit
    rw [show (String.mk (c :: ' ' :: ' ' :: p.data)).data
          = c :: ' ' :: ' ' :: p.data from rfl, hsplit]
    simp only [List.map, List.foldl]
    unfold classifyLine
    rw [show matchReady (String.mk (c :: ' ' :: ' ' :: p.data))
          = some (String.mk [c], p) from by
        show (if ' ' = ' ' ∧ ' ' = ' ' ∧ (c = 'A' ∨ c = 'D' ∨ c = 'M') ∧ '\n' ∉ p.data
              then some (String.mk [c], String.mk p.data) else none)
            = some (String.mk [c], p)
        rw [if_pos ⟨rfl, rfl, hc, hp⟩]]
    rw [show matchNotReady (String.mk (c :: ' ' :: ' ' :: p.data)) = none from by
        show (if c = ' ' ∧ ' ' = ' ' ∧ (' ' = '?' ∨ ' ' = 'A' ∨ ' ' = 'D' ∨ ' ' = 'M')
                ∧ '\n' ∉ p.data
              then some (String.mk [' '], String.mk p.data) else none)
            = none
        exact if_neg (fun h => hc1 h.1)]
    rfl
  exact ⟨by rw [key], by rw [key]⟩

/-- Witness for C3 at the concrete line "M  a.txt". -/
theorem ready_line_classification_witness :
    ('M' = 'A' ∨ 'M' = 'D' ∨ 'M' = 'M') ∧ '\n' ∉ "a.txt".data ∧
    ((GetStatus (Except.ok (String.mk ('M' :: ' ' :: ' ' :: "a.txt".data)))).Ready
        = [(String.mk ['M'], "a.txt")] ∧
     (GetStatus (Except.ok (String.mk ('M' :: ' ' :: ' ' :: "a.txt".data)))).NotReady = []) :=
  ⟨by decide, by decide, ready_line_classification 'M' "a.txt" (by decide) (by decide)⟩

/-- C4: the four-way divergence classification of RemoteStatus on successful
resolutions: all equal gives "=" (Equal); local equal to base but different
from remote gives "-1" (LocalBehind); remote equal to base but different from
local gives "+1" (LocalAhead); all pairwise distinct gives "-1+1" (Diverged).
The conjuncts reflect the order of the checks: each case holds exactly
because the earlier equalities fail. -/
theorem remoteStatus_divergence_classification (r s a b c : String)
    (hrs : r ≠ s) (hab : a ≠ b) (hac : a ≠ c) (hbc : b ≠ c) :
    RemoteStatus (Except.ok r) (Except.ok r) (Except.ok r) = Except.ok "=" ∧
    RemoteStatus (Except.ok r) (Except.ok s) (Except.ok r) = Except.ok "-1" ∧
    RemoteStatus (Except.ok r) (Except.ok s) (Except.ok s) = Except.ok "+1" ∧
    RemoteStatus (Except.ok a) (Except.ok b) (Except.ok c) = Except.ok "-1+1" := by
  refine ⟨?_, ?_, ?_, ?_⟩ <;>
    simp [RemoteStatus, RemoteStatusCompare, hrs, hab, hac, hbc]

/-- Witness for C4 at concrete revisions "x", "y" and "A", "B", "C". -/
theorem remoteStatus_divergence_classification_witness :
    RemoteStatus (Except.ok "x") (Except.ok "x") (Except.ok "x") = Except.ok "=" ∧
    RemoteStatus (Except.ok "x") (Except.ok "y") (Except.ok "x") = Except.ok "-1" ∧
    RemoteStatus (Except.ok "x") (Except.ok "y") (Except.ok "y") = Except.ok "+1" ∧
    RemoteStatus (Except.ok "A") (Except.ok "B") (Except.ok "C") = Except.ok "-1+1" :=
  remoteStatus_divergence_classification "x" "y" "A" "B" "C"
    (by decide) (by decide) (by decide) (by decide)

/-- C5: whenever one of the three revision resolutions fails, RemoteStatus
returns exactly that failure (Go's empty string plus the error, modelled as
`Except.error`), and therefore never one of the four classifications. -/
theorem remoteStatus_propagates_resolution_failure (e x y : String)
    (rRes bRes : Except String String) :
    RemoteStatus (Except.error e) rRes bRes = Except.error e ∧
    RemoteStatus (Except.ok x) (Except.error e) bRes = Except.error e ∧
    RemoteStatus (Except.ok x) (Except.ok y) (Except.error e) = Except.error e ∧
    ∀ out : String, RemoteStatus (Except.error e) rRes bRes ≠ Except.ok out :=
  ⟨rfl, rfl, rfl, fun _ h => Except.noConfusion h⟩

/-- C6 counterexample: the claim says the comparison is invariant under
trimming surrounding whitespace of the three revision identifiers. The source
compares the raw strings (git.go lines 164-173), so appending whitespace to
only one argument changes the result: on ("a ", "a", "a") the code yields
"+1" while the trimmed triple yields "=". -/
theorem remoteStatus_not_trim_invariant :
    RemoteStatusCompare "a " "a" "a"
      ≠ RemoteStatusCompare (specTrim "a ") (specTrim "a") (specTrim "a") := by
  decide

/-- C6 amended: the comparison operates on the raw, untrimmed revision
strings; identifiers that differ only in surrounding whitespace are treated
as distinct. What does hold is that appending one common suffix (such as the
trailing newline the external tool emits on every resolved revision) to all
three identifiers never changes the result. -/
theorem remoteStatusCompare_append_suffix_invariant (x y z w : String) :
    RemoteStatusCompare (x ++ w) (y ++ w) (z ++ w) = RemoteStatusCompare x y z := by
  unfold RemoteStatusCompare
  simp only [string_append_cancel_right]

/-- C7: when the snapshot's ready record has zero tracked entries, Commit
with errorIfEmpty = true returns the "nothing to commit" error and with
errorIfEmpty = false returns no error; in both cases the underlying commit
command is never invoked. -/
theorem commit_gate_empty_ready (msg : String) (statusRes : Except String String)
    (commitExit : Int) (h : (GetStatus statusRes).Ready.CountTracked = 0) :
    Commit msg true statusRes commitExit
      = { err := some "No files to commit. Please check", commitInvoked := false } ∧
    Commit msg false statusRes commitExit
      = { err := none, commitInvoked := false } := by
  constructor <;> simp [Commit, h]

/-- Witness for C7 on the empty status output. -/
theorem commit_gate_empty_ready_witness :
    (GetStatus (Except.ok "")).Ready.CountTracked = 0 ∧
    (Commit "m" true (Except.ok "") 0
      = { err := some "No files to commit. Please check", commitInvoked := false } ∧
     Commit "m" false (Except.ok "") 0
      = { err := none, commitInvoked := false }) :=
  ⟨by decide, commit_gate_empty_ready "m" (Except.ok "") 0 (by decide)⟩

/-- C8: the claim says a failing status query must surface a condition
distinguishable from the "nothing to commit" policy failure. The source never
inspects `s.Err` (git.go lines 71-77): when the status query fails, the
freshly initialized ready record is empty, so Commit reports plain success
(errorIfEmpty = false) or the "nothing to commit" error (errorIfEmpty =
true), in either case hiding the command-execution error. -/
theorem commit_swallows_status_error :
    Commit "m" false (Except.error "exec failure") 0
      = { err := none, commitInvoked := false } ∧
    Commit "m" true (Except.error "exec failure") 0
      = { err := some "No files to commit. Please check", commitInvoked := false } := by
  decide

/-- C9: the claim says that when a listing line's extracted remote name
equals the requested name, RemoteUrl returns that line's URL with found =
true. The source (git.go line 207) compares `v[0]` — the whole matched line —
against the name instead of the name capture `v[1]` (and would return `v[1]`,
the name, rather than the URL capture `v[2]`): on the listing
"origin myurl (fetch)" the extracted name is "origin", yet looking up
"origin" yields found = false and an empty string. -/
theorem remoteUrl_misses_matching_remote :
    matchRemoteVerbose "origin myurl (fetch)"
      = some ("origin myurl (fetch)", "origin", "myurl", "fetch") ∧
    RemoteUrl "origin" (Except.ok "origin myurl (fetch)")
      = some { url := "", found := false, err := none } := by
  decide

/-- C10: the claim says RemoteUrl tolerates non-matching lines (such as the
empty line after a trailing newline). The source indexes `v[0]` without a nil
check (git.go line 207), so the first non-matching line makes the program
index a nil slice at runtime, modelled here as the `none` outcome: a listing
ending in a newline already triggers it. -/
theorem remoteUrl_runtime_indexing_failure :
    RemoteUrl "origin" (Except.ok "origin myurl (fetch)\n") = none := by
  decide

end GoGit
